import Mathlib

/-!
Verification development for the Fraktalia port forwarder
(scripts/mox-port-forward.py), a transparent TCP forwarder that relays
traffic from host-facing listening ports to a dynamically resolved backend
container.

The Python source is shallowly embedded: the external world (control-plane
queries, outbound dials, the byte streams of an accepted connection) is
abstracted into explicit data, and each function of the script becomes a
total Lean function over that data, mirroring the source's control flow,
including its exception handling (`try`/`except`/`finally`) as explicit
case analysis.
-/

namespace MoxForward

/-! ## Transport errors and streams

`pipe(reader, writer)` reads chunks of at most `BUF_SIZE` bytes from
`reader`; a read either yields a chunk of bytes, signals EOF with an empty
chunk, or raises a transport error.  We model the data a reader will
deliver as the list of chunks of its successful reads, followed by how the
stream ends: clean EOF (the code sees `b""`) or a raised transport error.
Bytes are modelled as `Nat`. -/

/-- Kinds of transport error that a stream operation can raise, mirroring
the exception tuple `(ConnectionResetError, BrokenPipeError, OSError)`
caught in `pipe`. -/
inductive TErr where
  | reset
  | brokenPipe
  | osOther
deriving DecidableEq, Repr

/-- How a source stream ends after its data chunks: clean end-of-stream
(a zero-length read) or a raised transport error. -/
inductive PipeEnd where
  | eof
  | terr (e : TErr)
deriving DecidableEq, Repr

/-- A duplex stream's readable side: the chunks successive reads return,
then how the stream ends. -/
structure Source where
  chunks : List (List Nat)
  ending : PipeEnd
deriving DecidableEq, Repr

/-- How the `while True` loop body of `pipe` exits: clean break on a
zero-length read, a read raising a transport error, or a write/drain
raising a transport error. -/
inductive BodyEnd where
  | eof
  | readErr (e : TErr)
  | writeErr (e : TErr)
deriving DecidableEq, Repr

/-- The `while True` loop of `pipe`: read a chunk; `if not data: break`;
otherwise write it and drain.  `cap = some (k, e)` means the destination
accepts `k` more writes and the next one raises `e`; `cap = none` means
every write succeeds.  Returns the bytes successfully written and how the
loop exited. -/
def pipeBody : List (List Nat) → PipeEnd → Option (Nat × TErr) → List Nat × BodyEnd
  | [], PipeEnd.eof, _ => ([], BodyEnd.eof)
  | [], PipeEnd.terr e, _ => ([], BodyEnd.readErr e)
  | c :: rest, ending, cap =>
    if c.isEmpty then ([], BodyEnd.eof)
    else
      match cap with
      | some (0, e) => ([], BodyEnd.writeErr e)
      | some (Nat.succ k, e) =>
        let r := pipeBody rest ending (some (k, e))
        (c ++ r.1, r.2)
      | none =>
        let r := pipeBody rest ending none
        (c ++ r.1, r.2)

/-- Which loop-exit exceptions the `except (ConnectionResetError,
BrokenPipeError, OSError)` clause of `pipe` catches. -/
def caughtByExcept : TErr → Bool
  | TErr.reset => true
  | TErr.brokenPipe => true
  | TErr.osOther => true

/-- Observable outcome of one `pipe` call: the bytes delivered to the
destination, whether an exception escaped the function, and whether the
destination writer was closed. -/
structure PipeResult where
  written : List Nat
  raised : Bool
  closedDest : Bool
deriving DecidableEq, Repr

/-- `pipe(reader, writer)`: run the copy loop, catch transport errors,
and close the writer in the `finally` block on every exit path. -/
def pipe (src : Source) (cap : Option (Nat × TErr)) : PipeResult :=
  let r := pipeBody src.chunks src.ending cap
  { written := r.1
    raised :=
      match r.2 with
      | BodyEnd.eof => false
      | BodyEnd.readErr e => !caughtByExcept e
      | BodyEnd.writeErr e => !caughtByExcept e
    closedDest := true }

/-! ## Address resolution

`resolve_container_ip` runs `docker ps -q -f name=...` and, on a
non-empty answer, `docker inspect` on the first line of the output,
extracting the first truthy `IPAddress` among the descriptor's networks.
Every exception is caught, logged at debug severity, and turned into
`None`.  The control plane is abstracted as the outcomes of those two
queries; `Except.error` stands for any raised exception (timeout,
non-zero exit, malformed JSON, missing index). -/

/-- One attached network of the inspect descriptor:
`net.get("IPAddress")`, absent key modelled as `none`. -/
structure Network where
  ipAddress : Option String
deriving DecidableEq, Repr

/-- The truthiness test `if ip:` applied to `net.get("IPAddress")`:
`None` and the empty string are falsy. -/
def netIP (n : Network) : Option String :=
  match n.ipAddress with
  | some ip => if ip = "" then none else some ip
  | none => none

/-- The control plane as seen by `resolve_container_ip`: the raw output of
the container-list query, and for each container id the network list of
its descriptor.  `Except.error ()` is any raised exception on that
query. -/
structure ControlPlane where
  ps : Except Unit String
  inspect : String → Except Unit (List Network)

/-- Log severities of the script's logger calls. -/
inductive Severity where
  | debug
  | info
  | warn
deriving DecidableEq, Repr

/-- Python's `str.strip()`: drop whitespace from both ends. -/
def stripChars (cs : List Char) : List Char :=
  ((cs.dropWhile Char.isWhitespace).reverse.dropWhile Char.isWhitespace).reverse

/-- `out.splitlines()[0]` on a non-empty stripped string: the characters
before the first line break. -/
def firstLineChars (cs : List Char) : List Char :=
  cs.takeWhile (fun c => c ≠ '\n')

/-- The `for net in networks.values(): if ip: return ip` scan: first
truthy address wins, in descriptor order. -/
def firstTruthyIP : List Network → Option String
  | [] => none
  | n :: rest =>
    match netIP n with
    | some ip => some ip
    | none => firstTruthyIP rest

/-- Result of one resolver call: the returned value and the severities of
the log records it emitted. -/
structure ResolveOut where
  result : Option String
  logs : List Severity
deriving DecidableEq, Repr

/-- `resolve_container_ip()`: list matching containers, take the first id,
inspect it, return the first truthy network address; any exception is
caught, logged at debug severity, and the function returns `None`. -/
def resolve_container_ip (cp : ControlPlane) : ResolveOut :=
  match cp.ps with
  | Except.error _ => { result := none, logs := [Severity.debug] }
  | Except.ok raw =>
    let t := stripChars raw.data
    if t.isEmpty then { result := none, logs := [] }
    else
      match cp.inspect (String.mk (firstLineChars t)) with
      | Except.error _ => { result := none, logs := [Severity.debug] }
      | Except.ok nets => { result := firstTruthyIP nets, logs := [] }

/-! ## Connection handling -/

/-- Log events of `handle_connection`, with the data each message
interpolates. -/
inductive LogEv where
  | warnRefuse (port : Nat) (peer : String)
  | infoDialing (port : Nat) (peer : String) (ip : String)
  | warnDialFail (port : Nat) (peer : String) (ip : String) (errDetail : String)
  | infoClosed (port : Nat) (peer : String)
deriving DecidableEq, Repr

/-- The dial timeout passed to `asyncio.wait_for` around
`asyncio.open_connection`. -/
def dialTimeout : Nat := 5

/-- Environment of one accepted connection: the control plane at
resolution time, the listener port, the client's peer address, the result
of dialing a given host and port under a given timeout (`Except.error e`
is any exception, timeout included, with its message `e`), the two
readable stream sides, and the write capacities of the two destination
writers. -/
structure ConnEnv where
  cp : ControlPlane
  port : Nat
  peer : String
  dial : String → Nat → Nat → Except String Unit
  clientToBackend : Source
  backendToClient : Source
  upCap : Option (Nat × TErr)
  clCap : Option (Nat × TErr)

/-- Observable outcome of `handle_connection`: the log events in order,
the dial attempt made (host, port, timeout) if any, whether the inbound
client stream was closed, and the two directional pipe results when a
relay ran. -/
structure HCResult where
  logs : List LogEv
  dialed : Option (String × Nat × Nat)
  clientClosed : Bool
  relayResult : Option (PipeResult × PipeResult)
deriving DecidableEq, Repr

/-- `asyncio.gather(pipe(client_reader, upstream_writer),
pipe(upstream_reader, client_writer))`: both directional copies run to
completion and both results are produced. -/
def gatherRelay (c2b b2c : Source) (capU capC : Option (Nat × TErr)) :
    PipeResult × PipeResult :=
  (pipe c2b capU, pipe b2c capC)

/-- `handle_connection(client_reader, client_writer, port)`: resolve the
backend; on absence warn and close the client without dialing; otherwise
dial the resolved address on the same port with the 5-second timeout; on
dial failure warn and close the client; on success relay both directions
and log the close. -/
def handle_connection (env : ConnEnv) : HCResult :=
  match (resolve_container_ip env.cp).result with
  | none =>
    { logs := [LogEv.warnRefuse env.port env.peer]
      dialed := none
      clientClosed := true
      relayResult := none }
  | some ip =>
    match env.dial ip env.port dialTimeout with
    | Except.error e =>
      { logs := [LogEv.infoDialing env.port env.peer ip,
                 LogEv.warnDialFail env.port env.peer ip e]
        dialed := some (ip, env.port, dialTimeout)
        clientClosed := true
        relayResult := none }
    | Except.ok _ =>
      let r := gatherRelay env.clientToBackend env.backendToClient env.upCap env.clCap
      { logs := [LogEv.infoDialing env.port env.peer ip,
                 LogEv.infoClosed env.port env.peer]
        dialed := some (ip, env.port, dialTimeout)
        clientClosed := r.2.closedDest
        relayResult := some r }

/-! ## Process entry point

`__main__` builds `ports = [int(p) for p in sys.argv[1:]]` (or the default
list), then exits with status 1 on the first out-of-range port, otherwise
runs the forwarders.  CPython's `int(str)` first maps every Unicode
decimal digit (category Nd) to its ASCII digit and every Unicode
whitespace character to a space, failing on any other non-ASCII character,
then parses: optional surrounding whitespace, an optional ASCII sign,
digits with single underscores allowed between digits.  `pyParseInt`
embeds that conversion; `decIntegerLit` separately embeds the narrower
source-code grammar of a Python decimal integer literal, used only to
state what the original wording of one claim would mean. -/

/-- Underscore placement of the decimal-integer-literal grammar: ASCII
digits with each underscore surrounded by digits on both sides. -/
def usDigits : List Char → Bool
  | [] => true
  | ['_'] => false
  | '_' :: '_' :: _ => false
  | '_' :: c :: rest => c.isDigit && usDigits (c :: rest)
  | c :: rest => c.isDigit && usDigits rest

/-- Non-empty, starts with an ASCII digit, underscores only between
digits. -/
def pyDigitsOk (cs : List Char) : Bool :=
  match cs with
  | [] => false
  | c :: _ => c.isDigit && usDigits cs

/-- Modelled from the claim's words: a decimal integer literal of the
Python source grammar, `decinteger ::= nonzerodigit (["_"] digit)* |
"0"+ (["_"] "0")*` — ASCII digits only, no sign, no whitespace, no
leading zero unless the literal is all zeros. -/
def decIntegerLit (s : String) : Bool :=
  pyDigitsOk s.data &&
    (match s.data with
     | '0' :: rest => rest.all (fun c => c = '0' || c = '_')
     | _ => true)

/-- The whitespace set of CPython's `int(str)` conversion: the ASCII
whitespace its parser skips (`\t` `\n` `\v` `\f` `\r` and space) together
with the non-ASCII characters `Py_UNICODE_ISSPACE` accepts, which the
conversion first maps to a space (NEL, NBSP, ogham space mark, the
`U+2000`–`U+200A` spaces, line and paragraph separators, narrow no-break
space, medium mathematical space, ideographic space). -/
def pyIntSpace (c : Char) : Bool :=
  (9 ≤ c.toNat && c.toNat ≤ 13) || c = ' '
  || c.toNat = 0x85 || c.toNat = 0xA0 || c.toNat = 0x1680
  || (0x2000 ≤ c.toNat && c.toNat ≤ 0x200A)
  || c.toNat = 0x2028 || c.toNat = 0x2029 || c.toNat = 0x202F
  || c.toNat = 0x205F || c.toNat = 0x3000

/-- First code points of the runs of ten consecutive decimal digits that
make up the Unicode category Nd (Unicode 15.0, as shipped with CPython
3.12/3.13); the five mathematical-digit runs inside
`U+1D7CE`–`U+1D7FF` are listed separately. -/
def ndRanges : List Nat :=
  [0x30, 0x660, 0x6F0, 0x7C0, 0x966, 0x9E6, 0xA66, 0xAE6, 0xB66, 0xBE6,
   0xC66, 0xCE6, 0xD66, 0xDE6, 0xE50, 0xED0, 0xF20, 0x1040, 0x1090,
   0x17E0, 0x1810, 0x1946, 0x19D0, 0x1A80, 0x1A90, 0x1B50, 0x1BB0,
   0x1C40, 0x1C50, 0xA620, 0xA8D0, 0xA900, 0xA9D0, 0xA9F0, 0xAA50,
   0xABF0, 0xFF10, 0x104A0, 0x10D30, 0x11066, 0x110F0, 0x11136, 0x111D0,
   0x112F0, 0x11450, 0x114D0, 0x11650, 0x116C0, 0x11730, 0x118E0,
   0x11950, 0x11C50, 0x11D50, 0x11DA0, 0x11F50, 0x16A60, 0x16AC0,
   0x16B50, 0x1D7CE, 0x1D7D8, 0x1D7E2, 0x1D7EC, 0x1D7F6, 0x1E140,
   0x1E2F0, 0x1E4F0, 0x1E950, 0x1FBF0]

/-- The decimal value `Py_UNICODE_TODECIMAL` assigns to a character:
its offset within its Nd run, absent for characters that are not decimal
digits. -/
def pyDigitVal (c : Char) : Option Nat :=
  (ndRanges.find? (fun b => b ≤ c.toNat && c.toNat ≤ b + 9)).map
    (fun b => c.toNat - b)

/-- Parser state of the digit part of `int(str)` after the optional sign:
no digit seen yet, inside the digits with the accumulated value, just
after an underscore, or in the trailing whitespace. -/
inductive PIState where
  | start
  | digit (acc : Nat)
  | us (acc : Nat)
  | tail (acc : Nat)

/-- The digit part of CPython's `int(str)` parse: at least one decimal
digit, single underscores between digits, then only whitespace to the end
of the string. -/
def pyIntRun : PIState → List Char → Option Nat
  | PIState.start, [] => none
  | PIState.start, c :: rest =>
    match pyDigitVal c with
    | some d => pyIntRun (PIState.digit d) rest
    | none => none
  | PIState.digit acc, [] => some acc
  | PIState.digit acc, c :: rest =>
    match pyDigitVal c with
    | some d => pyIntRun (PIState.digit (acc * 10 + d)) rest
    | none =>
      if c = '_' then pyIntRun (PIState.us acc) rest
      else if pyIntSpace c then pyIntRun (PIState.tail acc) rest
      else none
  | PIState.us _, [] => none
  | PIState.us acc, c :: rest =>
    match pyDigitVal c with
    | some d => pyIntRun (PIState.digit (acc * 10 + d)) rest
    | none => none
  | PIState.tail acc, [] => some acc
  | PIState.tail acc, c :: rest =>
    if pyIntSpace c then pyIntRun (PIState.tail acc) rest else none

/-- Python's `int(s)` for base 10: skip leading whitespace (Unicode
whitespace included), an optional ASCII sign, then decimal digits of any
script with underscores between digits, then only trailing whitespace;
`none` when the conversion raises `ValueError`. -/
def pyParseInt (s : String) : Option Int :=
  match s.data.dropWhile pyIntSpace with
  | '+' :: rest => (pyIntRun PIState.start rest).map Int.ofNat
  | '-' :: rest => (pyIntRun PIState.start rest).map (fun n => -(Int.ofNat n))
  | rest => (pyIntRun PIState.start rest).map Int.ofNat

/-- The list comprehension `[int(p) for p in sys.argv[1:]]`: converts left
to right, the first failing conversion raises and aborts the whole
comprehension. -/
def parsePorts : List String → Option (List Int)
  | [] => some []
  | a :: rest =>
    match pyParseInt a with
    | none => none
    | some v =>
      match parsePorts rest with
      | none => none
      | some vs => some (v :: vs)

/-- `DEFAULT_PORTS`. -/
def DEFAULT_PORTS : List Int := [9000]

/-- `9000 <= p <= 9099`. -/
def portInRange (p : Int) : Bool := decide (9000 ≤ p) && decide (p ≤ 9099)

/-- Outcome of the `__main__` block before any listener exists: an
uncaught `ValueError` from `int(...)` (interpreter exits non-zero), a
`sys.exit(1)` from the range check, or proceeding to `asyncio.run(main(ports))`
which binds one listener per port. -/
inductive MainOutcome where
  | convError
  | rangeError (p : Int)
  | run (ports : List Int)
deriving DecidableEq, Repr

/-- The `__main__` block up to `asyncio.run`: build the port list from the
arguments after the program name (or the default list when there are
none), then exit 1 on the first out-of-range port. -/
def mainEntry (args : List String) : MainOutcome :=
  let ports? := if args.isEmpty then some DEFAULT_PORTS else parsePorts args
  match ports? with
  | none => MainOutcome.convError
  | some ports =>
    match ports.find? (fun p => !portInRange p) with
    | some p => MainOutcome.rangeError p
    | none => MainOutcome.run ports

/-- True when the outcome never reaches `asyncio.run`, so no listening
socket is bound and no network activity happens. -/
def abortsBeforeBind : MainOutcome → Bool
  | MainOutcome.run _ => false
  | _ => true

/-- True when the process exits with a non-zero status: `sys.exit(1)` on a
range failure, the interpreter's status 1 on an uncaught `ValueError`. -/
def exitNonzero : MainOutcome → Bool
  | MainOutcome.convError => true
  | MainOutcome.rangeError _ => true
  | MainOutcome.run _ => false

/-- The startup log line of `main(ports)` about the backend. -/
inductive StartupLog where
  | foundAt (ip : String)
  | warnNoContainer
deriving DecidableEq, Repr

/-- The body of `main(ports)`: resolve once for the startup log line, then
start one forwarder per configured port unconditionally.  Returns the
startup log event and the ports on which listeners are started. -/
def mainStartup (cp : ControlPlane) (ports : List Int) : StartupLog × List Int :=
  (match (resolve_container_ip cp).result with
   | some ip => StartupLog.foundAt ip
   | none => StartupLog.warnNoContainer,
   ports)

/-- Every chunk of a list is non-empty (a real transport read returns at
least one byte or signals EOF). -/
def allNonEmptyChunks (cs : List (List Nat)) : Bool :=
  cs.all (fun c => !c.isEmpty)

/-! ## Concrete instances used to instantiate the theorems -/

/-- A control plane with one running container whose descriptor lists an
address-less network before one with a usable address. -/
def cpOk : ControlPlane :=
  { ps := Except.ok "abc123\n"
    inspect := fun _ =>
      Except.ok [{ ipAddress := some "" }, { ipAddress := some "172.17.0.2" }] }

/-- A control plane whose queries both raise. -/
def cpDown : ControlPlane :=
  { ps := Except.error (), inspect := fun _ => Except.error () }

/-- A control plane whose list query returns only whitespace. -/
def cpEmptyPs : ControlPlane :=
  { ps := Except.ok "  \n ", inspect := fun _ => Except.error () }

/-- A control plane whose inspect query raises. -/
def cpBadInspect : ControlPlane :=
  { ps := Except.ok "id1", inspect := fun _ => Except.error () }

/-- A control plane whose descriptor holds no usable address. -/
def cpNoNets : ControlPlane :=
  { ps := Except.ok "id0", inspect := fun _ => Except.ok [{ ipAddress := none }] }

/-- A source that delivers two chunks and then a clean EOF. -/
def srcTwoChunks : Source := { chunks := [[1, 2], [3]], ending := PipeEnd.eof }

/-- A source that delivers one chunk and then a clean EOF. -/
def srcOneChunk : Source := { chunks := [[7, 8]], ending := PipeEnd.eof }

/-- A connection whose resolution and dial succeed and whose streams end
cleanly: an established relay under normal operation. -/
def envRelay : ConnEnv :=
  { cp := cpOk, port := 9000, peer := "127.0.0.1:51000"
    dial := fun _ _ _ => Except.ok ()
    clientToBackend := srcTwoChunks
    backendToClient := srcOneChunk
    upCap := none, clCap := none }

/-- A connection accepted while no backend is discoverable. -/
def envNoBackend : ConnEnv :=
  { cp := cpDown, port := 9001, peer := "127.0.0.1:51001"
    dial := fun _ _ _ => Except.ok ()
    clientToBackend := srcTwoChunks
    backendToClient := srcOneChunk
    upCap := none, clCap := none }

/-- A connection whose dial raises (refused or timed out). -/
def envDialFail : ConnEnv :=
  { cp := cpOk, port := 9002, peer := "127.0.0.1:51002"
    dial := fun _ _ _ => Except.error "refused"
    clientToBackend := srcTwoChunks
    backendToClient := srcOneChunk
    upCap := none, clCap := none }

/-! ## Helper lemmas -/

theorem caughtByExcept_true (e : TErr) : caughtByExcept e = true := by
  cases e <;> rfl

theorem pipeBody_eof_flatten (cs : List (List Nat))
    (h : allNonEmptyChunks cs = true) :
    pipeBody cs PipeEnd.eof none = (cs.flatten, BodyEnd.eof) := by
  induction cs with
  | nil => rfl
  | cons c rest ih =>
    simp only [allNonEmptyChunks, List.all_cons, Bool.and_eq_true,
      Bool.not_eq_true'] at h
    have hrest := ih (by simpa [allNonEmptyChunks] using h.2)
    simp [pipeBody, h.1, hrest]

theorem firstTruthyIP_eq_none (nets : List Network)
    (h : ∀ n ∈ nets, netIP n = none) : firstTruthyIP nets = none := by
  induction nets with
  | nil => rfl
  | cons n rest ih =>
    have hn := h n (by simp)
    simp [firstTruthyIP, hn, ih (fun m hm => h m (by simp [hm]))]

theorem firstTruthyIP_append (pre post : List Network) (n : Network) (ip : String)
    (hpre : ∀ m ∈ pre, netIP m = none) (hn : netIP n = some ip) :
    firstTruthyIP (pre ++ n :: post) = some ip := by
  induction pre with
  | nil => simp [firstTruthyIP, hn]
  | cons m rest ih =>
    have hm := hpre m (by simp)
    simp [firstTruthyIP, hm, ih (fun x hx => hpre x (by simp [hx]))]

theorem parsePorts_mem (args : List String) (ports : List Int) (a : String) (v : Int)
    (hp : parsePorts args = some ports) (ha : a ∈ args)
    (hv : pyParseInt a = some v) : v ∈ ports := by
  induction args generalizing ports with
  | nil => cases ha
  | cons b rest ih =>
    simp only [parsePorts] at hp
    rcases hb : pyParseInt b with _ | w <;> rw [hb] at hp
    · cases hp
    · rcases hr : parsePorts rest with _ | ws <;> rw [hr] at hp
      · cases hp
      · cases hp
        rcases List.mem_cons.mp ha with rfl | ha2
        · rw [hv] at hb
          cases hb
          exact List.mem_cons_self _ _
        · exact List.mem_cons_of_mem _ (ih ws hr ha2)

theorem parsePorts_fail (args : List String) (a : String)
    (ha : a ∈ args) (hp : pyParseInt a = none) : parsePorts args = none := by
  induction args with
  | nil => cases ha
  | cons b rest ih =>
    rcases List.mem_cons.mp ha with rfl | ha2
    · simp [parsePorts, hp]
    · cases hb : pyParseInt b <;> simp [parsePorts, hb, ih ha2]

theorem portInRange_iff (p : Int) :
    portInRange p = true ↔ (9000 ≤ p ∧ p ≤ 9099) := by
  simp [portInRange]

/-! ## Claims -/

/-- C1: for every established relay (resolution and dial succeeded), each
direction copies the bytes read from its source to its destination
unmodified and in order: under normal operation (clean EOF on both
sources, no write error) the bytes delivered in each direction are exactly
the concatenation, in order, of the chunks read on that direction's
source, with nothing reordered, duplicated, or dropped, independently for
client-to-backend and backend-to-client. -/
theorem relay_copies_bytes_in_order (env : ConnEnv) (ip : String)
    (hres : (resolve_container_ip env.cp).result = some ip)
    (hdial : env.dial ip env.port dialTimeout = Except.ok ())
    (he1 : env.clientToBackend.ending = PipeEnd.eof)
    (he2 : env.backendToClient.ending = PipeEnd.eof)
    (hc1 : allNonEmptyChunks env.clientToBackend.chunks = true)
    (hc2 : allNonEmptyChunks env.backendToClient.chunks = true)
    (hu : env.upCap = none) (hcl : env.clCap = none) :
    (handle_connection env).relayResult =
      some ({ written := env.clientToBackend.chunks.flatten
              raised := false, closedDest := true },
            { written := env.backendToClient.chunks.flatten
              raised := false, closedDest := true }) := by
  simp [handle_connection, hres, hdial, gatherRelay, pipe, hu, hcl, he1, he2,
    pipeBody_eof_flatten _ hc1, pipeBody_eof_flatten _ hc2]

theorem relay_copies_bytes_in_order_witness :
    (handle_connection envRelay).relayResult =
      some ({ written := [1, 2, 3], raised := false, closedDest := true },
            { written := [7, 8], raised := false, closedDest := true }) := by
  have h := relay_copies_bytes_in_order envRelay "172.17.0.2"
    (by decide) rfl rfl rfl (by decide) (by decide) rfl rfl
  exact h

/-- C3: the resolver never raises: it is a total function into an optional
address, its only log records are at debug severity, and it returns `none`
whenever the list query raises, whenever the list query reports no
matching instance, whenever the inspect query raises, and whenever the
descriptor holds no usable (non-empty) address. -/
theorem resolver_absorbs_failures (cp : ControlPlane) :
    (∀ s ∈ (resolve_container_ip cp).logs, s = Severity.debug)
    ∧ (cp.ps = Except.error () → (resolve_container_ip cp).result = none)
    ∧ (∀ raw, cp.ps = Except.ok raw → stripChars raw.data = [] →
        (resolve_container_ip cp).result = none)
    ∧ (∀ raw, cp.ps = Except.ok raw →
        cp.inspect (String.mk (firstLineChars (stripChars raw.data))) =
          Except.error () →
        (resolve_container_ip cp).result = none)
    ∧ (∀ raw nets, cp.ps = Except.ok raw →
        cp.inspect (String.mk (firstLineChars (stripChars raw.data))) =
          Except.ok nets →
        (∀ n ∈ nets, netIP n = none) →
        (resolve_container_ip cp).result = none) := by
  refine ⟨?_, ?_, ?_, ?_, ?_⟩
  · rcases hps : cp.ps with u | raw
    · simp [resolve_container_ip, hps]
    · by_cases ht : (stripChars raw.data).isEmpty = true
      · simp [resolve_container_ip, hps, ht]
      · rcases hin : cp.inspect (String.mk (firstLineChars (stripChars raw.data)))
          with u | nets
        · simp [resolve_container_ip, hps, ht, hin]
        · simp [resolve_container_ip, hps, ht, hin]
  · intro h
    simp [resolve_container_ip, h]
  · intro raw hps ht
    simp [resolve_container_ip, hps, ht]
  · intro raw hps hin
    by_cases ht : (stripChars raw.data).isEmpty = true
    · simp [resolve_container_ip, hps, ht]
    · simp [resolve_container_ip, hps, ht, hin]
  · intro raw nets hps hin hnets
    by_cases ht : (stripChars raw.data).isEmpty = true
    · simp [resolve_container_ip, hps, ht]
    · simp [resolve_container_ip, hps, ht, hin, firstTruthyIP_eq_none nets hnets]

theorem resolver_absorbs_failures_witness :
    (resolve_container_ip cpDown).result = none
    ∧ (resolve_container_ip cpEmptyPs).result = none
    ∧ (resolve_container_ip cpBadInspect).result = none
    ∧ (resolve_container_ip cpNoNets).result = none := by
  exact ⟨(resolver_absorbs_failures cpDown).2.1 rfl,
    (resolver_absorbs_failures cpEmptyPs).2.2.1 "  \n " rfl (by decide),
    (resolver_absorbs_failures cpBadInspect).2.2.2.1 "id1" rfl rfl,
    (resolver_absorbs_failures cpNoNets).2.2.2.2 "id0" [{ ipAddress := none }]
      rfl rfl (by decide)⟩

/-- C4: for every accepted connection whose resolution yields absent, the
handler closes the inbound stream, never attempts an outbound dial, runs
no relay, and its only log record is a warning carrying the listening port
and the client's peer address. -/
theorem refusal_closes_without_dial (env : ConnEnv)
    (h : (resolve_container_ip env.cp).result = none) :
    handle_connection env =
      { logs := [LogEv.warnRefuse env.port env.peer]
        dialed := none
        clientClosed := true
        relayResult := none } := by
  simp [handle_connection, h]

theorem refusal_closes_without_dial_witness :
    handle_connection envNoBackend =
      { logs := [LogEv.warnRefuse 9001 "127.0.0.1:51001"]
        dialed := none
        clientClosed := true
        relayResult := none } := by
  exact refusal_closes_without_dial envNoBackend rfl

/-- C5: for every accepted connection with a successful resolution, the
handler dials the resolved address on the same port number as the inbound
listener, bounded by the 5-second timeout; and every dial exception —
timeout and connection-refused alike, uniformly in the error detail — is
handled by closing the inbound stream, running no relay, and logging a
warning carrying the attempted backend address, the port, and the error
detail. -/
theorem dial_same_port_with_timeout (env : ConnEnv) (ip : String)
    (h : (resolve_container_ip env.cp).result = some ip) :
    (handle_connection env).dialed = some (ip, env.port, dialTimeout)
    ∧ dialTimeout = 5
    ∧ (∀ e, env.dial ip env.port dialTimeout = Except.error e →
        handle_connection env =
          { logs := [LogEv.infoDialing env.port env.peer ip,
                     LogEv.warnDialFail env.port env.peer ip e]
            dialed := some (ip, env.port, dialTimeout)
            clientClosed := true
            relayResult := none }) := by
  refine ⟨?_, rfl, ?_⟩
  · cases hd : env.dial ip env.port dialTimeout <;>
      simp [handle_connection, h, hd]
  · intro e he
    simp [handle_connection, h, he]

theorem dial_same_port_with_timeout_witness :
    (handle_connection envDialFail).dialed = some ("172.17.0.2", 9002, 5)
    ∧ handle_connection envDialFail =
      { logs := [LogEv.infoDialing 9002 "127.0.0.1:51002" "172.17.0.2",
                 LogEv.warnDialFail 9002 "127.0.0.1:51002" "172.17.0.2" "refused"]
        dialed := some ("172.17.0.2", 9002, 5)
        clientClosed := true
        relayResult := none } := by
  have h := dial_same_port_with_timeout envDialFail "172.17.0.2" (by decide)
  exact ⟨h.1, h.2.2 "refused" rfl⟩

/-- C6: for every directional copy, every transport error during copying —
reset, broken pipe, or generic I/O error, on the read side or on the write
side — is swallowed rather than propagated out of the copy, and on every
exit path (clean EOF, read error, write error) the direction's destination
stream is closed. -/
theorem pipe_swallows_errors_closes_dest (src : Source)
    (cap : Option (Nat × TErr)) :
    (pipe src cap).raised = false ∧ (pipe src cap).closedDest = true := by
  refine ⟨?_, rfl⟩
  rcases hb : (pipeBody src.chunks src.ending cap).2 with _ | e | e <;>
    simp [pipe, hb, caughtByExcept_true]

/-- C7: for every argument list containing a value that converts to a port
outside [9000, 9099], the process exits with a non-zero status and never
reaches the point that binds a listening socket or performs any network
activity. -/
theorem out_of_range_port_aborts (args : List String) (a : String) (v : Int)
    (ha : a ∈ args) (hpv : pyParseInt a = some v)
    (hv : ¬(9000 ≤ v ∧ v ≤ 9099)) :
    abortsBeforeBind (mainEntry args) = true
    ∧ exitNonzero (mainEntry args) = true := by
  have hne : args.isEmpty = false := by
    cases args with
    | nil => cases ha
    | cons b rest => rfl
  rcases hp : parsePorts args with _ | ports
  · constructor <;> simp [mainEntry, hne, hp, abortsBeforeBind, exitNonzero]
  · have hvp : v ∈ ports := parsePorts_mem args ports a v hp ha hpv
    rcases hf : ports.find? (fun p => !portInRange p) with _ | q
    · exfalso
      have h2 := List.find?_eq_none.mp hf v hvp
      simp only [Bool.not_eq_true'] at h2
      have h3 : portInRange v = true := by
        cases hr : portInRange v
        · exact absurd hr h2
        · rfl
      exact hv ((portInRange_iff v).mp h3)
    · constructor <;>
        simp [mainEntry, hne, hp, hf, abortsBeforeBind, exitNonzero]

theorem out_of_range_port_aborts_witness :
    abortsBeforeBind (mainEntry ["8080"]) = true
    ∧ exitNonzero (mainEntry ["8080"]) = true := by
  exact out_of_range_port_aborts ["8080"] "8080" 8080
    (List.mem_cons_self _ _) (by decide) (by decide)

/-- C8: when the control plane reports matching instances, the resolver
inspects exactly the first instance id of the list query's output, and
returns the first non-empty network address among that instance's
networks, in descriptor order: every network before the chosen one carries
no usable address. -/
theorem resolver_first_match_first_ip (cp : ControlPlane) (raw : String)
    (pre post : List Network) (n : Network) (ip : String)
    (hps : cp.ps = Except.ok raw)
    (ht : (stripChars raw.data).isEmpty = false)
    (hins : cp.inspect (String.mk (firstLineChars (stripChars raw.data))) =
      Except.ok (pre ++ n :: post))
    (hpre : ∀ m ∈ pre, netIP m = none) (hn : netIP n = some ip) :
    (resolve_container_ip cp).result = some ip := by
  simp [resolve_container_ip, hps, ht, hins,
    firstTruthyIP_append pre post n ip hpre hn]

theorem resolver_first_match_first_ip_witness :
    (resolve_container_ip cpOk).result = some "172.17.0.2" := by
  exact resolver_first_match_first_ip cpOk "abc123\n" [{ ipAddress := some "" }]
    [] { ipAddress := some "172.17.0.2" } "172.17.0.2" rfl (by decide) rfl
    (by decide) (by decide)

/-- C9 counterexample: the claim as stated — every argument that is not a
decimal integer literal aborts the process — is false of the program.
The argument `"９０００"` (fullwidth digits) is not a decimal integer
literal of the Python grammar, yet `int()` converts it to 9000, the range
check passes, and the process proceeds to bind a listener rather than
terminating. -/
theorem nonliteral_arg_may_still_run :
    decIntegerLit "９０００" = false
    ∧ mainEntry ["９０００"] = MainOutcome.run [9000]
    ∧ abortsBeforeBind (mainEntry ["９０００"]) = false := by
  decide

/-- C9 (amended): for every command-line argument rejected by Python's
decimal integer conversion `int(...)` — which, unlike the literal
grammar, also accepts Unicode decimal digits and surrounding Unicode
whitespace — the process ends in the uncaught-conversion-error outcome, a
non-zero exit status, before the port-range check runs and before any
listener is bound. -/
theorem nonint_arg_conversion_aborts (args : List String) (a : String)
    (ha : a ∈ args) (hp : pyParseInt a = none) :
    mainEntry args = MainOutcome.convError
    ∧ abortsBeforeBind (mainEntry args) = true
    ∧ exitNonzero (mainEntry args) = true := by
  have hne : args.isEmpty = false := by
    cases args with
    | nil => cases ha
    | cons b rest => rfl
  have hpp := parsePorts_fail args a ha hp
  refine ⟨?_, ?_, ?_⟩ <;>
    simp [mainEntry, hne, hpp, abortsBeforeBind, exitNonzero]

theorem nonint_arg_conversion_aborts_witness :
    mainEntry ["90x0"] = MainOutcome.convError
    ∧ abortsBeforeBind (mainEntry ["90x0"]) = true
    ∧ exitNonzero (mainEntry ["90x0"]) = true := by
  exact nonint_arg_conversion_aborts ["90x0"] "90x0"
    (List.mem_cons_self _ _) (by decide)

/-- C10: the startup resolution in `main` is purely informational: the
listeners are started on exactly the configured ports whatever the
resolution returns, and the resolution outcome determines only which
startup log event is emitted. -/
theorem startup_resolution_informational (cp : ControlPlane) (ports : List Int) :
    (mainStartup cp ports).2 = ports
    ∧ ((resolve_container_ip cp).result = none →
        (mainStartup cp ports).1 = StartupLog.warnNoContainer)
    ∧ (∀ ip, (resolve_container_ip cp).result = some ip →
        (mainStartup cp ports).1 = StartupLog.foundAt ip) := by
  refine ⟨rfl, ?_, ?_⟩
  · intro h
    simp [mainStartup, h]
  · intro ip h
    simp [mainStartup, h]

theorem startup_resolution_informational_witness :
    (mainStartup cpOk [9000, 9001]).2 = [9000, 9001]
    ∧ (mainStartup cpDown [9000, 9001]).1 = StartupLog.warnNoContainer
    ∧ (mainStartup cpOk [9000, 9001]).1 = StartupLog.foundAt "172.17.0.2" := by
  exact ⟨(startup_resolution_informational cpOk [9000, 9001]).1,
    (startup_resolution_informational cpDown [9000, 9001]).2.1 rfl,
    (startup_resolution_informational cpOk [9000, 9001]).2.2 "172.17.0.2"
      (by decide)⟩

end MoxForward
